import Mathlib

/-!
# Verification of the IGA tenant-question / response-threading subsystem

Shallow embedding of the Express route handlers (`server/routes.ts`), the
storage layer (`server/storage.ts`), the local file storage
(`server/file-storage.ts`) and the shared table schema (`shared/schema.ts`)
of the IGA repository, together with theorems settling the frozen claims
about the assignment, access-control, response and attachment operations.

Conventions of the embedding:
* database rows are Lean structures mirroring the drizzle table columns;
  timestamps are `Nat` clock values, passed in as `now` where the database
  would apply `defaultNow()`;
* the mutable database is an explicit `StorageState` record of row lists in
  insertion order, with autoincrement counters;
* JavaScript `null`/`undefined` on nullable columns is `Option`;
* handlers return `Except ApiError α` (paired with the post-state where they
  mutate); `throw new Error(...)` in the storage layer is
  `.error (.internal ...)`, reaching the express error handler as HTTP 500.
-/

set_option linter.unusedVariables false

namespace IGA

/-- Row of the `users` table (shared/schema.ts). `tenantId` is nullable. -/
structure User where
  id : Nat
  username : String
  password : String
  email : String
  fullName : String
  role : String
  tenantId : Option Nat
  createdAt : Nat
  deriving DecidableEq

/-- Row of the `tenants` table (shared/schema.ts). -/
structure Tenant where
  id : Nat
  name : String
  description : Option String
  industry : Option String
  createdAt : Nat
  deriving DecidableEq

/-- Row of the `questions` table (shared/schema.ts). `tags` is a text column. -/
structure Question where
  id : Nat
  title : String
  description : Option String
  domainId : Nat
  required : Bool
  tags : String
  createdAt : Nat
  updatedAt : Nat
  deriving DecidableEq

/-- Row of the `tenant_questions` table (shared/schema.ts): assignment of one
question to one tenant plus its progress status. -/
structure TenantQuestion where
  id : Nat
  tenantId : Nat
  questionId : Nat
  status : String
  lastUpdated : Nat
  deriving DecidableEq

/-- Row of the `responses` table (shared/schema.ts). -/
structure Response where
  id : Nat
  tenantQuestionId : Nat
  userId : Nat
  content : String
  createdAt : Nat
  deriving DecidableEq

/-- Row of the `attachments` table (shared/schema.ts). -/
structure Attachment where
  id : Nat
  responseId : Nat
  filename : String
  originalName : String
  mimeType : String
  size : Nat
  createdAt : Nat
  deriving DecidableEq

/-- The relational store: one list per table, insertion order, plus the
autoincrement counters of the tables the embedded operations insert into. -/
structure StorageState where
  users : List User
  tenants : List Tenant
  questions : List Question
  tenantQuestions : List TenantQuestion
  responses : List Response
  attachments : List Attachment
  nextUserId : Nat
  nextTenantQuestionId : Nat
  nextResponseId : Nat
  deriving DecidableEq

/-- Error taxonomy produced by the embedded handlers, mirroring the
`res.status(...).json({ message })` responses of server/routes.ts and
thrown storage errors (which reach the client as HTTP 500). -/
inductive ApiError where
  | validationError (msg : String)
  | forbidden (msg : String)
  | notFound (msg : String)
  | internal (msg : String)
  deriving DecidableEq

/-- The HTTP status code each error is sent with by the routes. -/
def ApiError.httpStatus : ApiError → Nat
  | .validationError _ => 400
  | .forbidden _ => 403
  | .notFound _ => 404
  | .internal _ => 500

instance {ε α : Type} [DecidableEq ε] [DecidableEq α] : DecidableEq (Except ε α)
  | .ok a, .ok b =>
    if h : a = b then .isTrue (by rw [h]) else .isFalse (by simp [h])
  | .error a, .error b =>
    if h : a = b then .isTrue (by rw [h]) else .isFalse (by simp [h])
  | .ok _, .error _ => .isFalse (by simp)
  | .error _, .ok _ => .isFalse (by simp)

/-! ## Storage layer (server/storage.ts) -/

/-- Storage op `storage.getUser`: select by primary key. -/
def getUser (s : StorageState) (id : Nat) : Option User :=
  s.users.find? (fun u => u.id == id)

/-- Storage op `storage.getUserByUsername`. -/
def getUserByUsername (s : StorageState) (username : String) : Option User :=
  s.users.find? (fun u => u.username == username)

/-- Storage op `storage.getUsersByTenant`: `WHERE tenant_id = ?` — SQL equality against
NULL is never true, so unbound users are excluded. -/
def getUsersByTenant (s : StorageState) (tenantId : Nat) : List User :=
  s.users.filter (fun u => u.tenantId == some tenantId)

/-- Storage op `storage.createUser`: insert with autoincrement id, `created_at` default
current time. -/
def createUser (s : StorageState) (now : Nat) (username password email fullName role : String)
    (tenantId : Option Nat) : User × StorageState :=
  let user : User :=
    { id := s.nextUserId, username := username, password := password, email := email,
      fullName := fullName, role := role, tenantId := tenantId, createdAt := now }
  (user, { s with users := s.users ++ [user], nextUserId := s.nextUserId + 1 })

/-- Storage op `storage.getQuestion`. -/
def getQuestion (s : StorageState) (id : Nat) : Option Question :=
  s.questions.find? (fun q => q.id == id)

/-- Storage op `storage.getAllQuestions`. -/
def getAllQuestions (s : StorageState) : List Question :=
  s.questions

/-- Storage op `storage.createTenantQuestion`: insert into
`tenant_questions`. The store enforces the FOREIGN KEY constraints
declared on the table (migration.sql: `FOREIGN KEY (tenant_id) REFERENCES
tenants(id)`, `FOREIGN KEY (question_id) REFERENCES questions(id)`;
likewise `.references(...)` in shared/schema.ts): an insert with a
dangling tenant or question reference throws a constraint error — which
reaches the client as HTTP 500 via `next(error)` — and creates no row.
On success the `status` column has database default `'Unanswered'` when
the insert omits it, and `last_updated` defaults to the current time. -/
def createTenantQuestion (s : StorageState) (now : Nat) (tenantId questionId : Nat)
    (status : Option String) : Except ApiError (TenantQuestion × StorageState) :=
  if !(s.tenants.any fun t => t.id == tenantId) then
    .error (.internal "foreign key constraint fails (tenant_id)")
  else if !(s.questions.any fun q => q.id == questionId) then
    .error (.internal "foreign key constraint fails (question_id)")
  else
    let tq : TenantQuestion :=
      { id := s.nextTenantQuestionId, tenantId := tenantId, questionId := questionId,
        status := status.getD "Unanswered", lastUpdated := now }
    .ok (tq, { s with tenantQuestions := s.tenantQuestions ++ [tq],
                      nextTenantQuestionId := s.nextTenantQuestionId + 1 })

/-- Storage op `storage.getTenantQuestion`: select by primary key. -/
def getTenantQuestion (s : StorageState) (id : Nat) : Option TenantQuestion :=
  s.tenantQuestions.find? (fun tq => tq.id == id)

/-- Storage op `storage.getTenantQuestionByIds`: select by the (tenantId, questionId)
pair — the pre-lookup used by the assignment route. -/
def getTenantQuestionByIds (s : StorageState) (tenantId questionId : Nat) :
    Option TenantQuestion :=
  s.tenantQuestions.find? (fun tq => tq.tenantId == tenantId && tq.questionId == questionId)

/-- Modelled from the spec: `storage.updateTenantQuestion` is called by the
status route (`PUT /api/tenant/:tenantId/questions/:id/status`) but its
implementation is missing from src/server/storage.ts. Per the spec's
`setStatus` contract, a successful update "updates lastUpdated to current
time" and the update of a missing row yields null. -/
def updateTenantQuestion (s : StorageState) (now : Nat) (id : Nat) (status : String) :
    Option (TenantQuestion × StorageState) :=
  match getTenantQuestion s id with
  | none => none
  | some tq =>
    let tq' : TenantQuestion := { tq with status := status, lastUpdated := now }
    some (tq', { s with
      tenantQuestions := s.tenantQuestions.map (fun t => if t.id == id then tq' else t) })

/-- Modelled from the spec: `storage.getTenantQuestionsByTenant` is called by
the dashboard route but its implementation is missing from
src/server/storage.ts; like the other tenant-scoped selects it returns the
tenant's TenantQuestion rows in insertion order. -/
def getTenantQuestionsByTenant (s : StorageState) (tenantId : Nat) : List TenantQuestion :=
  s.tenantQuestions.filter (fun tq => tq.tenantId == tenantId)

/-- Storage op `storage.createResponse`: insert with autoincrement id and
`created_at` default current time. -/
def createResponse (s : StorageState) (now : Nat) (tenantQuestionId userId : Nat)
    (content : String) : Response × StorageState :=
  let r : Response :=
    { id := s.nextResponseId, tenantQuestionId := tenantQuestionId, userId := userId,
      content := content, createdAt := now }
  (r, { s with responses := s.responses ++ [r], nextResponseId := s.nextResponseId + 1 })

/-- Storage op `storage.getResponse`. -/
def getResponse (s : StorageState) (id : Nat) : Option Response :=
  s.responses.find? (fun r => r.id == id)

/-- Storage op `storage.getResponsesByTenantQuestion`: the thread of a tenant question,
in insertion order. -/
def getResponsesByTenantQuestion (s : StorageState) (tenantQuestionId : Nat) : List Response :=
  s.responses.filter (fun r => r.tenantQuestionId == tenantQuestionId)

/-- Storage op `storage.createAttachment` (src/server/storage.ts):
`throw new Error("Method not implemented.")`. -/
def createAttachment (s : StorageState) (responseId : Nat)
    (filename originalName mimeType : String) (size : Nat) :
    Except ApiError (Attachment × StorageState) :=
  .error (.internal "Method not implemented.")

/-- Storage op `storage.getAttachment` (src/server/storage.ts):
`throw new Error("Method not implemented.")`. -/
def getAttachment (s : StorageState) (id : Nat) : Except ApiError (Option Attachment) :=
  .error (.internal "Method not implemented.")

/-- Storage op `storage.getAttachmentsByResponse` (src/server/storage.ts):
`throw new Error("Method not implemented.")`. -/
def getAttachmentsByResponse (s : StorageState) (responseId : Nat) :
    Except ApiError (List Attachment) :=
  .error (.internal "Method not implemented.")

/-- Per-domain progress entry — shape modelled from the spec (§4.3), since
the producing storage method is an unimplemented stub in src. -/
structure DomainProgress where
  domain : String
  answered : Nat
  total : Nat
  progress : Nat
  deriving DecidableEq

/-- Result shape of `getTenantProgress` — modelled from the spec (§4.3),
since the producing storage method is an unimplemented stub in src. -/
structure TenantProgress where
  overallCompletion : Nat
  answered : Nat
  totalQuestions : Nat
  domainProgress : List DomainProgress
  deriving DecidableEq

/-- Storage op `storage.getTenantProgress` (src/server/storage.ts, lines 203-206):
`throw new Error("Method not implemented.")`. -/
def getTenantProgress (s : StorageState) (tenantId : Nat) : Except ApiError TenantProgress :=
  .error (.internal "Method not implemented.")

/-! ## Multer upload configuration (server/routes.ts, lines 12-34) -/

/-- The `allowedMimetypes` array of the multer `fileFilter`. -/
def allowedMimetypes : List String :=
  ["application/pdf",
   "application/msword",
   "application/vnd.openxmlformats-officedocument.wordprocessingml.document",
   "image/png",
   "image/jpeg"]

/-- The multer `limits.fileSize` cap: `10 * 1024 * 1024` bytes. -/
def maxFileSize : Nat := 10 * 1024 * 1024

/-- The multer `fileFilter` callback: accept exactly when the mimetype is in
the allow-list; otherwise the callback raises
"Unsupported file type: ...". -/
def fileFilter (mimetype : String) : Bool :=
  allowedMimetypes.contains mimetype

/-- Outcome of multer's screening of one uploaded file. -/
inductive UploadDecision where
  | accepted
  | unsupportedType (mimetype : String)
  | tooLarge
  deriving DecidableEq

/-- Combined effect of the multer configuration on one uploaded file: the
`fileFilter` mimetype allow-list and the `limits.fileSize` cap. A file that
passes both is handed to the route handler unrejected. -/
def multerCheck (mimetype : String) (size : Nat) : UploadDecision :=
  if !fileFilter mimetype then .unsupportedType mimetype
  else if size > maxFileSize then .tooLarge
  else .accepted

/-! ## Local file storage (server/file-storage.ts) -/

/-- The uploads directory contents: storage key to byte content, most
recent write first (a rewrite of an existing key shadows the old entry,
like `fs.writeFile` overwriting), plus a freshness counter standing in for
the `uuidv4()` generator. -/
structure FileStore where
  files : List (String × List Nat)
  nextUuid : Nat
  deriving DecidableEq

/-- Model of `path.extname` for ordinary file names: the suffix from the last dot,
empty when the name has no dot. -/
def extname (name : String) : String :=
  match (name.splitOn ".").reverse with
  | [] => ""
  | [_] => ""
  | ext :: _ :: _ => "." ++ ext

/-- Metadata record `SavedFileInfo` (server/file-storage.ts). -/
structure SavedFileInfo where
  filename : String
  originalName : String
  mimeType : String
  size : Nat
  deriving DecidableEq

/-- File write `LocalFileStorage.saveFile`: writes the buffer under a fresh
`${uuidv4()}${extname(originalFilename)}` key and reports the saved
metadata, with `size = buffer.length`. -/
def saveFile (fs : FileStore) (buffer : List Nat) (originalFilename mimeType : String) :
    SavedFileInfo × FileStore :=
  let uniqueFilename := toString fs.nextUuid ++ extname originalFilename
  ({ filename := uniqueFilename, originalName := originalFilename,
     mimeType := mimeType, size := buffer.length },
   { files := (uniqueFilename, buffer) :: fs.files, nextUuid := fs.nextUuid + 1 })

/-- File read `LocalFileStorage.getFile`: reads the bytes stored under the key; a
missing file makes `fs.readFile` reject (surfacing as an internal error). -/
def getFile (fs : FileStore) (filename : String) : Except ApiError (List Nat) :=
  match fs.files.find? (fun p => p.1 == filename) with
  | some p => .ok p.2
  | none => .error (.internal "ENOENT")

/-! ## Route handlers (server/routes.ts) -/

/-- The `{ id, fullName, role }` projection of a user that the response
routes attach to their payloads. -/
structure UserProjection where
  id : Nat
  fullName : String
  role : String
  deriving DecidableEq

def userProjection (u : User) : UserProjection :=
  { id := u.id, fullName := u.fullName, role := u.role }

/-- One element of the response-listing payload: the row, the posting
user's projection (null when the user row is gone), and the attachments. -/
structure ResponseWithDetails where
  response : Response
  user : Option UserProjection
  attachments : List Attachment
  deriving DecidableEq

/-- The detail join of `GET /api/tenant-questions/:id/responses`: for each
response, look up the posting user and its attachments
(`storage.getAttachmentsByResponse` — an unimplemented stub, so any
non-empty thread raises an internal error). -/
def buildResponsesWithDetails (s : StorageState) : List Response →
    Except ApiError (List ResponseWithDetails)
  | [] => .ok []
  | response :: rest => do
    let attachments ← getAttachmentsByResponse s response.id
    let tail ← buildResponsesWithDetails s rest
    pure ({ response := response,
            user := (getUser s response.userId).map userProjection,
            attachments := attachments } :: tail)

/-- Route `GET /api/tenant-questions/:id/responses` (server/routes.ts, lines
341-382). Access gate as written in the source:
`user.role !== "Admin" && user.tenantId !== tenantQuestion.tenantId`
(note: no Consultant exemption on this read path). -/
def listResponses (s : StorageState) (tenantQuestionId : Nat) (user : User) :
    Except ApiError (List ResponseWithDetails) :=
  match getTenantQuestion s tenantQuestionId with
  | none => .error (.notFound "Tenant question not found")
  | some tenantQuestion =>
    if user.role != "Admin" && user.tenantId != some tenantQuestion.tenantId then
      .error (.forbidden "You don't have permission to access this data")
    else
      buildResponsesWithDetails s (getResponsesByTenantQuestion s tenantQuestionId)

/-- Validator `insertResponseSchema` (shared/schema.ts, lines 99-103):
`createInsertSchema(responses).pick({tenantQuestionId, userId, content})`.
The generated validator for the `content` text column is a bare string
check with no `.trim()`/`.min(1)` refinement, so every string — including
the empty string — passes the `validateBody` middleware. -/
def insertResponseSchemaAcceptsContent (content : String) : Bool :=
  true

/-- Route `POST /api/tenant-questions/:id/responses` (server/routes.ts, lines
384-435), composed with its `validateBody(insertResponseSchema)`
middleware. Access gate as written in the source:
`role !== "Admin" && role !== "Consultant" && tenantId !== tq.tenantId`.
After the insert the handler fetches the question and notifies the other
users of the tenant; evaluating `question!.title` with a missing question
row is a TypeError (HTTP 500) — reached only when there is someone to
notify, and after the response row was already inserted. The returned
state is the database state the call leaves behind in either case. -/
def postResponse (s : StorageState) (now : Nat) (tenantQuestionId : Nat) (currentUser : User)
    (content : String) : Except ApiError ResponseWithDetails × StorageState :=
  if !insertResponseSchemaAcceptsContent content then
    (.error (.validationError "Validation error"), s)
  else
    match getTenantQuestion s tenantQuestionId with
    | none => (.error (.notFound "Tenant question not found"), s)
    | some tenantQuestion =>
      if currentUser.role != "Admin" && currentUser.role != "Consultant"
          && currentUser.tenantId != some tenantQuestion.tenantId then
        (.error (.forbidden "You don't have permission to add responses to this question"), s)
      else
        let step1 := createResponse s now tenantQuestionId currentUser.id content
        let response := step1.1
        let s1 := step1.2
        let question := getQuestion s1 tenantQuestion.questionId
        let tenantUsers := getUsersByTenant s1 tenantQuestion.tenantId
        if (tenantUsers.any (fun u => u.id != currentUser.id)) && question.isNone then
          (.error (.internal "TypeError: question is null"), s1)
        else
          (.ok { response := response,
                 user := (getUser s1 response.userId).map userProjection,
                 attachments := [] }, s1)

/-- Route `PUT /api/tenant/:tenantId/questions/:id/status` (server/routes.ts,
lines 319-338). The handler validates the status value and updates the
row; `req.user` is never consulted — the route performs no role or tenant
check (the `user` argument is deliberately unused, mirroring the source). -/
def setStatusRoute (s : StorageState) (now : Nat) (user : User) (id : Nat) (status : String) :
    Except ApiError TenantQuestion × StorageState :=
  if !(["Unanswered", "In Progress", "Answered"].contains status) then
    (.error (.validationError "Invalid status"), s)
  else
    match updateTenantQuestion s now id status with
    | none => (.error (.notFound "Tenant question not found"), s)
    | some (tq, s') => (.ok tq, s')

/-- Route `POST /api/admin/tenant-questions` (server/routes.ts, lines 298-317):
pre-lookup of the (tenantId, questionId) pair; an existing row is rejected
with `res.status(400)` and message "This question is already assigned to
the tenant"; otherwise the row is inserted. The route itself performs no
existence check of the tenant or the question — a dangling reference is
rejected only by the store's foreign-key constraint, whose error
propagates through `next(error)` as an internal failure. -/
def assignTenantQuestionRoute (s : StorageState) (now : Nat) (tenantId questionId : Nat)
    (status : Option String) : Except ApiError TenantQuestion × StorageState :=
  match getTenantQuestionByIds s tenantId questionId with
  | some _ => (.error (.validationError "This question is already assigned to the tenant"), s)
  | none =>
    match createTenantQuestion s now tenantId questionId status with
    | .error e => (.error e, s)
    | .ok (tq, s') => (.ok tq, s')

/-- One multipart upload as multer hands it to the route handler. -/
structure UploadedFile where
  buffer : List Nat
  originalname : String
  mimetype : String
  deriving DecidableEq

/-- Route `POST /api/responses/:id/attachments` (server/routes.ts, lines
438-496): missing file → 400; missing response → 404; a user who is
neither the response's author nor an Admin → 403; then the file is saved
to the file store and `storage.createAttachment` is called — which is an
unimplemented stub that throws, so the attachment row is never created
(the continuation after it, notifications included, is dead code). The
result carries the database state and the file-store state the call
leaves behind. -/
def attachFileRoute (s : StorageState) (fs : FileStore) (now : Nat) (user : User)
    (responseId : Nat) (file : Option UploadedFile) :
    Except ApiError Attachment × StorageState × FileStore :=
  match file with
  | none => (.error (.validationError "No file uploaded"), s, fs)
  | some f =>
    match getResponse s responseId with
    | none => (.error (.notFound "Response not found"), s, fs)
    | some response =>
      if user.id != response.userId && user.role != "Admin" then
        (.error (.forbidden "You don't have permission to add attachments to this response"),
         s, fs)
      else
        let saved := saveFile fs f.buffer f.originalname f.mimetype
        let savedFile := saved.1
        let fs' := saved.2
        match createAttachment s responseId savedFile.filename savedFile.originalName
            savedFile.mimeType savedFile.size with
        | .error e => (.error e, s, fs')
        | .ok (attachment, s') => (.ok attachment, s', fs')

/-- Route `GET /api/attachments/:id` (server/routes.ts, lines 498-531):
`storage.getAttachment` is called first — an unimplemented stub that
throws, so every download fails with an internal error; the permission
re-check (`role !== "Admin" && role !== "Consultant" && tenant mismatch`)
and the file read are dead code, embedded here as written. -/
def downloadAttachmentRoute (s : StorageState) (fs : FileStore) (user : User)
    (attachmentId : Nat) : Except ApiError (List Nat) :=
  match getAttachment s attachmentId with
  | .error e => .error e
  | .ok none => .error (.notFound "Attachment not found")
  | .ok (some attachment) =>
    match getResponse s attachment.responseId with
    | none => .error (.internal "TypeError: response is null")
    | some response =>
      match getTenantQuestion s response.tenantQuestionId with
      | none => .error (.internal "TypeError: tenantQuestion is null")
      | some tenantQuestion =>
        if user.role != "Admin" && user.role != "Consultant"
            && user.tenantId != some tenantQuestion.tenantId then
          .error (.forbidden "You don't have permission to access this file")
        else
          getFile fs attachment.filename

/-- Modelled from the spec: `hashPassword` lives in server/auth.ts, which
is not under src/ (the credential-hashing collaborator is excluded by the
spec, §1); modelled as an uninterpreted injective tagging of the password
string — no claim depends on its value. -/
def hashPassword (password : String) : String :=
  "hashed:" ++ password

/-- The registration request body (insertUserSchema fields). -/
structure RegisterBody where
  username : String
  password : String
  email : String
  fullName : String
  role : String
  tenantId : Option Nat
  deriving DecidableEq

/-- The registration bulk-assignment loop
(`for (const question of questions) { await storage.createTenantQuestion(...) }`):
sequential inserts with no surrounding transaction — a constraint error
thrown by one insert aborts the loop (propagating to `next(error)`) while
the rows already inserted persist. -/
def assignAllQuestions (now tenantId : Nat) : StorageState → List Question →
    Except (ApiError × StorageState) StorageState
  | s, [] => .ok s
  | s, question :: rest =>
    match createTenantQuestion s now tenantId question.id (some "Unanswered") with
    | .error e => .error (e, s)
    | .ok (_, s') => assignAllQuestions now tenantId s' rest

/-- Route `POST /api/register` (server/routes.ts, lines 604-632): reject an
existing username with 400; create the user with the hashed password; when
the new user carries a tenantId, assign every question of the global pool
to that tenant with status "Unanswered" — with no duplicate check against
assignments the tenant already has. A foreign-key failure mid-loop ends
the request with an internal error, keeping the user row and the
assignments inserted before it. -/
def registerRoute (s : StorageState) (now : Nat) (body : RegisterBody) :
    Except ApiError User × StorageState :=
  match getUserByUsername s body.username with
  | some _ => (.error (.validationError "Username already exists"), s)
  | none =>
    let created := createUser s now body.username (hashPassword body.password)
      body.email body.fullName body.role body.tenantId
    let user := created.1
    let s1 := created.2
    match user.tenantId with
    | none => (.ok user, s1)
    | some tenantId =>
      match assignAllQuestions now tenantId s1 (getAllQuestions s1) with
      | .error (e, s2) => (.error e, s2)
      | .ok s2 => (.ok user, s2)

/-- A user row as returned to the client by the admin user listing: the
rest-spread `const { password, ...userWithoutPassword } = user` keeps every
field except `password`. -/
structure SanitizedUser where
  id : Nat
  username : String
  email : String
  fullName : String
  role : String
  tenantId : Option Nat
  createdAt : Nat
  deriving DecidableEq

/-- The rest-spread `const { password, ...userWithoutPassword } = user` (server/routes.ts,
lines 593-596). -/
def sanitizeUser (u : User) : SanitizedUser :=
  { id := u.id, username := u.username, email := u.email, fullName := u.fullName,
    role := u.role, tenantId := u.tenantId, createdAt := u.createdAt }

/-- The `userId` member the all-users branch reads: the `Storage` class in
src/server/storage.ts declares no such field, so `(storage as any).userId`
evaluates to `undefined`. -/
def storageUserIdCounter : Option Nat :=
  none

/-- The all-users branch of `GET /api/admin/users`:
`for (let i = 1; i < (storage as any).userId; i++)` collecting
`storage.getUser(i)` hits. With the counter `undefined` the loop condition
`i < undefined` is false from the start and nothing is collected. -/
def allUsersViaCounter (s : StorageState) : List User :=
  match storageUserIdCounter with
  | none => []
  | some n => ((List.range n).drop 1).filterMap (getUser s)

/-- Route `GET /api/admin/users` (server/routes.ts, lines 576-602). `if
(tenantId)` is a JavaScript truthiness test, so a parsed query value of 0
falls through to the all-users branch. Every collected user passes through
the password-stripping map before being sent. -/
def adminListUsers (s : StorageState) (tenantIdParam : Option Nat) : List SanitizedUser :=
  let users := match tenantIdParam with
    | some t => if t != 0 then getUsersByTenant s t else allUsersViaCounter s
    | none => allUsersViaCounter s
  users.map sanitizeUser

/-- One entry of the dashboard's recent-activity list. -/
structure ActivityItem where
  type : String
  user : Option UserProjection
  questionTitle : Option String
  questionId : Nat
  date : Nat
  deriving DecidableEq

/-- Stable insertion of an activity into a list sorted by date descending —
the effect of `Array.prototype.sort` (stable) with the comparator
`(a, b) => b.date.getTime() - a.date.getTime()`. -/
def insertActivityByDateDesc (a : ActivityItem) : List ActivityItem → List ActivityItem
  | [] => [a]
  | b :: rest =>
    if b.date < a.date then a :: b :: rest else b :: insertActivityByDateDesc a rest

/-- Stable sort by date descending (see `insertActivityByDateDesc`). -/
def sortByDateDesc : List ActivityItem → List ActivityItem
  | [] => []
  | a :: rest => insertActivityByDateDesc a (sortByDateDesc rest)

/-- The dashboard payload. -/
structure DashboardOut where
  progress : TenantProgress
  recentActivities : List ActivityItem
  deriving DecidableEq

/-- Route `GET /api/tenant/:tenantId/dashboard` (server/routes.ts, lines
534-573): fetches `storage.getTenantProgress` first (an unimplemented stub
that throws, so the whole route always fails with an internal error); the
recent-activity construction that follows — `tenantQuestions.slice(0, 5)`,
the latest response of each (`responses[responses.length - 1]`), sorted by
date descending and truncated to 5 — is embedded as written although it is
unreachable. -/
def tenantDashboard (s : StorageState) (tenantId : Nat) : Except ApiError DashboardOut :=
  match getTenantProgress s tenantId with
  | .error e => .error e
  | .ok progress =>
    let tenantQuestions := getTenantQuestionsByTenant s tenantId
    let recentActivities := (tenantQuestions.take 5).filterMap (fun tq =>
      let responses := getResponsesByTenantQuestion s tq.id
      responses.getLast?.map (fun latestResponse =>
        { type := "response",
          user := (getUser s latestResponse.userId).map userProjection,
          questionTitle := (getQuestion s tq.questionId).map (fun q => q.title),
          questionId := tq.id,
          date := latestResponse.createdAt }))
    .ok { progress := progress,
          recentActivities := (sortByDateDesc recentActivities).take 5 }

/-! ## The system's mutating operations as a step relation (for the
reachability invariant claims) -/

/-- The mutating operations named by the invariant claim: explicit
assignment, registration-time bulk default-assignment, status updates,
response creation, attachment creation. -/
inductive Op where
  | assign (now tenantId questionId : Nat) (status : Option String)
  | registerUser (now : Nat) (body : RegisterBody)
  | setStatus (now : Nat) (user : User) (id : Nat) (status : String)
  | post (now : Nat) (user : User) (tenantQuestionId : Nat) (content : String)
  | attach (now : Nat) (user : User) (responseId : Nat) (file : Option UploadedFile)
  deriving DecidableEq

/-- The database state an operation leaves behind (the file-store content
does not feed back into the database, so `attach` runs against an empty
file store without loss). -/
def step (s : StorageState) : Op → StorageState
  | .assign now tenantId questionId status =>
    (assignTenantQuestionRoute s now tenantId questionId status).2
  | .registerUser now body => (registerRoute s now body).2
  | .setStatus now user id status => (setStatusRoute s now user id status).2
  | .post now user tenantQuestionId content =>
    (postResponse s now tenantQuestionId user content).2
  | .attach now user responseId file =>
    (attachFileRoute s ⟨[], 0⟩ now user responseId file).2.1

/-- Run a sequence of operations. -/
def runOps (s : StorageState) (ops : List Op) : StorageState :=
  ops.foldl step s

/-- Whether an operation is a registration (the one operation whose bulk
default-assignment skips the duplicate pre-lookup). -/
def Op.isRegister : Op → Bool
  | .registerUser _ _ => true
  | _ => false

/-- The (tenantId, questionId) pair of an assignment row. -/
def TenantQuestion.pair (tq : TenantQuestion) : Nat × Nat :=
  (tq.tenantId, tq.questionId)

/-- The claimed invariant: no two TenantQuestion rows share a
(tenantId, questionId) pair. -/
def uniqueAssignment (s : StorageState) : Prop :=
  (s.tenantQuestions.map TenantQuestion.pair).Nodup

instance (s : StorageState) : Decidable (uniqueAssignment s) := by
  unfold uniqueAssignment; infer_instance

/-- Storage well-formedness maintained by the autoincrement discipline:
distinct assignment pairs, distinct assignment row ids, and every row id
below the autoincrement counter. -/
def tqWellFormed (s : StorageState) : Prop :=
  (s.tenantQuestions.map TenantQuestion.pair).Nodup ∧
  (s.tenantQuestions.map TenantQuestion.id).Nodup ∧
  ∀ tq ∈ s.tenantQuestions, tq.id < s.nextTenantQuestionId

instance (s : StorageState) : Decidable (tqWellFormed s) := by
  unfold tqWellFormed; infer_instance

/-! ## Concrete fixtures for witnesses and counterexamples -/

/-- Sample admin user (unbound to a tenant). -/
def adminUser : User :=
  { id := 1, username := "admin", password := "secret-admin", email := "admin@example.com",
    fullName := "System Admin", role := "Admin", tenantId := none, createdAt := 0 }

/-- Sample consultant user, unbound to any tenant. -/
def consultantUser : User :=
  { id := 2, username := "carol", password := "secret-carol", email := "carol@example.com",
    fullName := "Carol Consultant", role := "Consultant", tenantId := none, createdAt := 0 }

/-- Sample customer bound to tenant 5. -/
def customer5 : User :=
  { id := 3, username := "dave", password := "secret-dave", email := "dave@example.com",
    fullName := "Dave Customer", role := "Customer", tenantId := some 5, createdAt := 0 }

/-- Sample customer bound to tenant 7. -/
def customer7 : User :=
  { id := 4, username := "erin", password := "secret-erin", email := "erin@example.com",
    fullName := "Erin Customer", role := "Customer", tenantId := some 7, createdAt := 0 }

/-- Sample tenant with id 7. -/
def tenant7 : Tenant :=
  { id := 7, name := "Globex", description := none, industry := none, createdAt := 0 }

/-- Sample question with id 1. -/
def question1 : Question :=
  { id := 1, title := "Access review cadence", description := none, domainId := 1,
    required := false, tags := "", createdAt := 0, updatedAt := 0 }

/-- Sample assignment: question 1 assigned to tenant 7, row id 1. -/
def tq1 : TenantQuestion :=
  { id := 1, tenantId := 7, questionId := 1, status := "Unanswered", lastUpdated := 0 }

/-- A populated store: four users, tenant 7, question 1, and question 1
already assigned to tenant 7. -/
def baseStore : StorageState :=
  { users := [adminUser, consultantUser, customer5, customer7],
    tenants := [tenant7],
    questions := [question1],
    tenantQuestions := [tq1],
    responses := [],
    attachments := [],
    nextUserId := 5, nextTenantQuestionId := 2, nextResponseId := 1 }

/-- Sample question with id 2 (not yet assigned to anyone). -/
def question2 : Question :=
  { id := 2, title := "Privileged account inventory", description := none, domainId := 1,
    required := false, tags := "", createdAt := 0, updatedAt := 0 }

/-- Store `baseStore` extended with question 2, so that the pair (7, 2) is
assignable without violating a foreign-key constraint. -/
def wideStore : StorageState :=
  { baseStore with questions := [question1, question2] }

/-- A store with no TenantQuestion rows at all. -/
def emptyStore : StorageState :=
  { users := [], tenants := [], questions := [], tenantQuestions := [],
    responses := [], attachments := [],
    nextUserId := 1, nextTenantQuestionId := 1, nextResponseId := 1 }

/-- Store `baseStore` plus one response (id 1, by customer 7) on assignment 1. -/
def responseStore : StorageState :=
  { baseStore with
    responses := [{ id := 1, tenantQuestionId := 1, userId := 4, content := "done",
                    createdAt := 1 }],
    nextResponseId := 2 }

/-- Store `baseStore` plus two responses on assignment 1 (for the dashboard
recent-activity claim). -/
def dashStore : StorageState :=
  { baseStore with
    responses := [{ id := 1, tenantQuestionId := 1, userId := 4, content := "first",
                    createdAt := 1 },
                  { id := 2, tenantQuestionId := 1, userId := 4, content := "second",
                    createdAt := 2 }],
    nextResponseId := 3 }

/-- An empty file store. -/
def emptyFiles : FileStore :=
  { files := [], nextUuid := 0 }

/-- A small PNG upload, well within the multer limits. -/
def pngFile : UploadedFile :=
  { buffer := [137, 80, 78, 71], originalname := "logo.png", mimetype := "image/png" }

/-- Registration body for a new customer of tenant 7. -/
def regBody1 : RegisterBody :=
  { username := "newuser1", password := "pw1", email := "n1@example.com",
    fullName := "New One", role := "Customer", tenantId := some 7 }

/-! ## Theorems -/

/-- Claim C8: the multer configuration accepts an upload exactly when its
MIME type is in the allow-list {pdf, doc, docx, png, jpeg} and its size is
at most 10 MiB; a MIME type outside the allow-list is rejected as an
unsupported type. -/
theorem multer_allowlist_and_size_limit (m : String) (sz : Nat) :
    (multerCheck m sz = .accepted ↔ (m ∈ allowedMimetypes ∧ sz ≤ maxFileSize)) ∧
    (m ∉ allowedMimetypes → multerCheck m sz = .unsupportedType m) := by
  constructor
  · unfold multerCheck fileFilter
    by_cases hm : m ∈ allowedMimetypes
    · by_cases hsz : sz ≤ maxFileSize
      · simp [hm, hsz, Nat.not_lt.mpr hsz]
      · simp [hm, hsz, Nat.lt_of_not_le hsz]
    · simp [hm]
  · intro hm
    unfold multerCheck fileFilter
    simp [hm]

/-- Claim C8 witness: a zip upload is rejected as an unsupported type. -/
theorem multer_allowlist_and_size_limit_witness :
    multerCheck "application/zip" 4 = .unsupportedType "application/zip" :=
  (multer_allowlist_and_size_limit "application/zip" 4).2 (by decide)

/-- Claim C5: refuted as stated — `storage.getTenantProgress` is an
unimplemented stub (`throw new Error("Method not implemented.")`,
src/server/storage.ts lines 203-206), so a tenant with zero TenantQuestion
rows gets an internal error (HTTP 500), not overallCompletion = 0 with
empty domainProgress. The spec is the evident intent (the source comment
reads "Dashboard data (needs implementation)"), so this is a code bug. -/
theorem getTenantProgress_throws :
    getTenantProgress emptyStore 1 = .error (.internal "Method not implemented.") := rfl

/-- Claim C9 counterexample: on a store where tenant 7 has one assignment
carrying two responses, the claim says the dashboard's recent-activity
feed lists those responses most-recent-first; the code instead fails with
an internal error before any feed is computed, because
`storage.getTenantProgress` is called first and throws. -/
theorem tenantDashboard_concrete_failure :
    tenantDashboard dashStore 7 = .error (.internal "Method not implemented.") := rfl

/-- Claim C9 (amended): for every store and tenant the dashboard request
fails with the internal "Method not implemented." error raised by
`storage.getTenantProgress`, so no recent-activity feed is ever returned
(the feed-construction code in the route is unreachable). -/
theorem tenantDashboard_always_fails (s : StorageState) (tenantId : Nat) :
    tenantDashboard s tenantId = .error (.internal "Method not implemented.") := rfl

/-- Claim C10: every user object returned by the admin user listing — on
the per-tenant branch as well as the all-tenants branch — is the
password-stripping projection of a stored user (`SanitizedUser` carries
every `users` column except `password`). -/
theorem adminListUsers_strips_password (s : StorageState) (tid : Option Nat)
    (u : SanitizedUser) (h : u ∈ adminListUsers s tid) :
    ∃ orig, orig ∈ s.users ∧ u = sanitizeUser orig := by
  unfold adminListUsers at h
  rcases List.mem_map.mp h with ⟨orig, horig, rfl⟩
  refine ⟨orig, ?_, rfl⟩
  cases tid with
  | none => simp [allUsersViaCounter, storageUserIdCounter] at horig
  | some t =>
    dsimp only at horig
    by_cases ht : t != 0
    · rw [if_pos ht] at horig
      exact (List.mem_filter.mp horig).1
    · rw [if_neg ht] at horig
      simp [allUsersViaCounter, storageUserIdCounter] at horig

/-- Claim C10 witness: the listing of tenant 7 contains the sanitized
customer 7, and that entry is the password-stripping projection of a
stored user. -/
theorem adminListUsers_strips_password_witness :
    sanitizeUser customer7 ∈ adminListUsers baseStore (some 7) ∧
    ∃ orig, orig ∈ baseStore.users ∧ sanitizeUser customer7 = sanitizeUser orig :=
  ⟨by decide, adminListUsers_strips_password baseStore (some 7) (sanitizeUser customer7)
    (by decide)⟩

/-- On a non-empty thread the detail join hits the unimplemented
attachment lookup and raises the internal stub error. -/
theorem buildResponsesWithDetails_cons (s : StorageState) (r : Response) (rest : List Response) :
    buildResponsesWithDetails s (r :: rest) = .error (.internal "Method not implemented.") := rfl

/-- The detail join never produces a Forbidden error (it is either `ok` on
an empty thread or the internal stub error). -/
theorem buildResponsesWithDetails_ne_forbidden (s : StorageState) (l : List Response)
    (msg : String) : buildResponsesWithDetails s l ≠ .error (.forbidden msg) := by
  cases l with
  | nil => simp [buildResponsesWithDetails]
  | cons r rest => rw [buildResponsesWithDetails_cons]; simp

/-- Unfolding of `listResponses` when the TenantQuestion exists. -/
theorem listResponses_found (s : StorageState) (tqId : Nat) (user : User)
    (tq : TenantQuestion) (h : getTenantQuestion s tqId = some tq) :
    listResponses s tqId user
      = if user.role != "Admin" && user.tenantId != some tq.tenantId then
          .error (.forbidden "You don't have permission to access this data")
        else buildResponsesWithDetails s (getResponsesByTenantQuestion s tqId) := by
  rw [listResponses, h]

/-- Unfolding of `postResponse` when the TenantQuestion exists. -/
theorem postResponse_found (s : StorageState) (now tqId : Nat) (user : User)
    (content : String) (tq : TenantQuestion) (h : getTenantQuestion s tqId = some tq) :
    postResponse s now tqId user content
      = if user.role != "Admin" && user.role != "Consultant"
            && user.tenantId != some tq.tenantId then
          (.error (.forbidden "You don't have permission to add responses to this question"),
           s)
        else if ((getUsersByTenant (createResponse s now tqId user.id content).2
              tq.tenantId).any fun u => u.id != user.id)
            && (getQuestion (createResponse s now tqId user.id content).2
              tq.questionId).isNone then
          (.error (.internal "TypeError: question is null"),
           (createResponse s now tqId user.id content).2)
        else
          (.ok { response := (createResponse s now tqId user.id content).1,
                 user := Option.map userProjection
                   (getUser (createResponse s now tqId user.id content).2
                     (createResponse s now tqId user.id content).1.userId),
                 attachments := [] },
           (createResponse s now tqId user.id content).2) := by
  rw [postResponse]
  simp only [insertResponseSchemaAcceptsContent, Bool.not_true, Bool.false_eq_true, if_false]
  rw [h]

/-- Claim C1 counterexample: the claim grants a Consultant access on the
read path regardless of tenant; on the code, a tenant-unbound Consultant
calling `listResponses` on an existing TenantQuestion of tenant 7 is
refused with Forbidden (the read-path guard checks only Admin or matching
tenant). -/
theorem listResponses_consultant_forbidden :
    listResponses baseStore 1 consultantUser
      = .error (.forbidden "You don't have permission to access this data") := by decide

/-- Claim C1 (amended): the response read and write paths gate access with
separate inline checks rather than one shared capability: for an existing
TenantQuestion, `listResponses` returns Forbidden exactly when the caller
is neither an Admin nor a user whose tenantId matches the row's tenant
(Consultants get no exemption here), while `postResponse` returns
Forbidden exactly when the caller is neither Admin nor Consultant nor
tenant-matching; in particular a Customer with a differing tenantId is
refused on both paths and one with the matching tenantId is admitted. -/
theorem threadAccess_read_write_gates (s : StorageState) (tqId now : Nat)
    (tq : TenantQuestion) (user : User) (content : String)
    (h : getTenantQuestion s tqId = some tq) :
    (listResponses s tqId user
        = .error (.forbidden "You don't have permission to access this data")
      ↔ ¬(user.role = "Admin" ∨ user.tenantId = some tq.tenantId)) ∧
    ((postResponse s now tqId user content).1
        = .error (.forbidden "You don't have permission to add responses to this question")
      ↔ ¬(user.role = "Admin" ∨ user.role = "Consultant"
            ∨ user.tenantId = some tq.tenantId)) := by
  constructor
  · rw [listResponses_found s tqId user tq h]
    by_cases hc : user.role = "Admin" ∨ user.tenantId = some tq.tenantId
    · have hb : (user.role != "Admin" && user.tenantId != some tq.tenantId) = false := by
        rcases hc with hc | hc <;> simp [hc]
      rw [if_neg (by simp [hb])]
      exact iff_of_false
        (buildResponsesWithDetails_ne_forbidden s (getResponsesByTenantQuestion s tqId)
          "You don't have permission to access this data")
        (not_not_intro hc)
    · have hb : (user.role != "Admin" && user.tenantId != some tq.tenantId) = true := by
        push_neg at hc
        simp [bne_iff_ne, hc.1, hc.2]
      rw [if_pos hb]
      exact iff_of_true rfl hc
  · rw [postResponse_found s now tqId user content tq h]
    by_cases hc : user.role = "Admin" ∨ user.role = "Consultant"
        ∨ user.tenantId = some tq.tenantId
    · have hb : (user.role != "Admin" && user.role != "Consultant"
          && user.tenantId != some tq.tenantId) = false := by
        rcases hc with hc | hc | hc <;> simp [hc]
      rw [if_neg (by simp [hb])]
      refine iff_of_false ?_ (not_not_intro hc)
      by_cases hn : (((getUsersByTenant (createResponse s now tqId user.id content).2
            tq.tenantId).any fun u => u.id != user.id)
          && (getQuestion (createResponse s now tqId user.id content).2
            tq.questionId).isNone) = true
      · rw [if_pos hn]
        simp
      · rw [if_neg hn]
        simp
    · have hb : (user.role != "Admin" && user.role != "Consultant"
          && user.tenantId != some tq.tenantId) = true := by
        push_neg at hc
        simp [bne_iff_ne, hc.1, hc.2.1, hc.2.2]
      rw [if_pos hb]
      exact iff_of_true rfl hc

/-- Claim C1 witness: instantiated at the populated store — the
tenant-5 Customer is refused on the read path of assignment 1 (tenant 7)
and the tenant-7 Customer is not, per the characterization. -/
theorem threadAccess_read_write_gates_witness :
    getTenantQuestion baseStore 1 = some tq1 ∧
    ((listResponses baseStore 1 customer5
        = .error (.forbidden "You don't have permission to access this data")
      ↔ ¬(customer5.role = "Admin" ∨ customer5.tenantId = some tq1.tenantId)) ∧
    ((postResponse baseStore 3 1 customer5 "hello").1
        = .error (.forbidden "You don't have permission to add responses to this question")
      ↔ ¬(customer5.role = "Admin" ∨ customer5.role = "Consultant"
            ∨ customer5.tenantId = some tq1.tenantId))) :=
  ⟨by decide, threadAccess_read_write_gates baseStore 1 3 tq1 customer5 "hello" (by decide)⟩

/-- Claim C2 counterexample: a Customer of tenant 5 updating the status of
an existing TenantQuestion of tenant 7 — the claim requires Forbidden, but
the route performs no permission check and the update succeeds. -/
theorem setStatus_cross_tenant_succeeds :
    (setStatusRoute baseStore 5 customer5 1 "Answered").1
      = .ok { id := 1, tenantId := 7, questionId := 1, status := "Answered",
              lastUpdated := 5 } := by decide

/-- Claim C2 (amended): `setStatus` performs no permission check at all —
for every acting user, whatever the role or tenant, a valid status value
updates an existing TenantQuestion (setting `lastUpdated` to the current
time, storage update modelled from the spec) and yields NotFound when the
row does not exist; Forbidden is never returned. -/
theorem setStatus_ignores_acting_user (s : StorageState) (now : Nat) (user : User)
    (id : Nat) (status : String)
    (hs : status ∈ ["Unanswered", "In Progress", "Answered"]) :
    (∀ tq, getTenantQuestion s id = some tq →
      (setStatusRoute s now user id status).1
        = .ok { tq with status := status, lastUpdated := now }) ∧
    (getTenantQuestion s id = none →
      (setStatusRoute s now user id status).1
        = .error (.notFound "Tenant question not found")) := by
  have hc : (["Unanswered", "In Progress", "Answered"].contains status) = true := by
    simpa using hs
  constructor
  · intro tq htq
    rw [setStatusRoute, hc]
    simp only [Bool.not_true, Bool.false_eq_true, if_false]
    rw [updateTenantQuestion, htq]
  · intro hnone
    rw [setStatusRoute, hc]
    simp only [Bool.not_true, Bool.false_eq_true, if_false]
    rw [updateTenantQuestion, hnone]

/-- Claim C2 witness: the Admin updating assignment 1 to "In Progress"
succeeds with `lastUpdated` set to the call time. -/
theorem setStatus_ignores_acting_user_witness :
    "In Progress" ∈ ["Unanswered", "In Progress", "Answered"] ∧
    getTenantQuestion baseStore 1 = some tq1 ∧
    (setStatusRoute baseStore 8 adminUser 1 "In Progress").1
      = .ok { tq1 with status := "In Progress", lastUpdated := 8 } :=
  ⟨by decide, by decide,
    (setStatus_ignores_acting_user baseStore 8 adminUser 1 "In Progress" (by decide)).1
      tq1 (by decide)⟩

/-- Claim C4 counterexample: assigning the already-assigned pair (7, 1)
fails with the duplicate message at HTTP 400, not 409 as claimed; and
assigning question 1 to the nonexistent tenant 99 does not fail with
NotFound — the route checks neither tenant nor question existence, so the
store's foreign-key constraint rejects the insert as an internal error
(HTTP 500), leaving the store unchanged. -/
theorem assignQuestion_duplicate_is_400_and_no_notfound :
    (assignTenantQuestionRoute baseStore 5 7 1 none).1
      = .error (.validationError "This question is already assigned to the tenant") ∧
    (ApiError.validationError "This question is already assigned to the tenant").httpStatus
      = 400 ∧
    (assignTenantQuestionRoute baseStore 5 99 1 none).1
      = .error (.internal "foreign key constraint fails (tenant_id)") ∧
    (ApiError.internal "foreign key constraint fails (tenant_id)").httpStatus = 500 ∧
    (assignTenantQuestionRoute baseStore 5 99 1 none).2 = baseStore := by decide

/-- Claim C4 (amended): the assignment route rejects an existing
(tenantId, questionId) pair — detected by the pre-lookup — with the
duplicate message at HTTP 400 and leaves the store unchanged; it performs
no tenant or question existence check itself, so when the pair is absent
but the referenced tenant (or question) does not exist, the outcome is
not NotFound but the store's foreign-key constraint error, an internal
failure (HTTP 500) that creates no row; when the pair is absent and both
references exist, the row is inserted with status defaulting to
"Unanswered" when none is supplied and `lastUpdated` set to now. -/
theorem assignQuestion_preLookup_behavior (s : StorageState) (now tenantId questionId : Nat)
    (status : Option String) :
    (∀ tq, getTenantQuestionByIds s tenantId questionId = some tq →
      assignTenantQuestionRoute s now tenantId questionId status
        = (.error (.validationError "This question is already assigned to the tenant"), s) ∧
      (ApiError.validationError
        "This question is already assigned to the tenant").httpStatus = 400) ∧
    (getTenantQuestionByIds s tenantId questionId = none →
      ((s.tenants.any fun t => t.id == tenantId) = false →
        assignTenantQuestionRoute s now tenantId questionId status
          = (.error (.internal "foreign key constraint fails (tenant_id)"), s)) ∧
      ((s.tenants.any fun t => t.id == tenantId) = true →
        (s.questions.any fun q => q.id == questionId) = false →
        assignTenantQuestionRoute s now tenantId questionId status
          = (.error (.internal "foreign key constraint fails (question_id)"), s)) ∧
      ((s.tenants.any fun t => t.id == tenantId) = true →
        (s.questions.any fun q => q.id == questionId) = true →
        assignTenantQuestionRoute s now tenantId questionId status
          = (.ok { id := s.nextTenantQuestionId, tenantId := tenantId,
                   questionId := questionId, status := status.getD "Unanswered",
                   lastUpdated := now },
             { s with
               tenantQuestions := s.tenantQuestions ++
                 [{ id := s.nextTenantQuestionId, tenantId := tenantId,
                    questionId := questionId, status := status.getD "Unanswered",
                    lastUpdated := now }],
               nextTenantQuestionId := s.nextTenantQuestionId + 1 }))) := by
  constructor
  · intro tq htq
    rw [assignTenantQuestionRoute, htq]
    exact ⟨rfl, rfl⟩
  · intro hnone
    refine ⟨?_, ?_, ?_⟩
    · intro ht
      rw [assignTenantQuestionRoute, hnone, createTenantQuestion, if_pos (by rw [ht]; rfl)]
    · intro ht hq
      rw [assignTenantQuestionRoute, hnone, createTenantQuestion,
        if_neg (by rw [ht]; simp), if_pos (by rw [hq]; rfl)]
    · intro ht hq
      rw [assignTenantQuestionRoute, hnone, createTenantQuestion,
        if_neg (by rw [ht]; simp), if_neg (by rw [hq]; simp)]

/-- Claim C4 witness: on the store where tenant 7 and question 2 both
exist and the pair (7, 2) is unassigned, the assignment inserts exactly
one new row with status "Unanswered"; and the duplicate pair (7, 1) is
rejected at HTTP 400 with the store unchanged. -/
theorem assignQuestion_preLookup_behavior_witness :
    (getTenantQuestionByIds wideStore 7 2 = none ∧
     (wideStore.tenants.any fun t => t.id == 7) = true ∧
     (wideStore.questions.any fun q => q.id == 2) = true ∧
     assignTenantQuestionRoute wideStore 4 7 2 none
       = (.ok { id := 2, tenantId := 7, questionId := 2, status := "Unanswered",
                lastUpdated := 4 },
          { wideStore with
            tenantQuestions := wideStore.tenantQuestions ++
              [{ id := 2, tenantId := 7, questionId := 2, status := "Unanswered",
                 lastUpdated := 4 }],
            nextTenantQuestionId := 3 })) ∧
    (getTenantQuestionByIds wideStore 7 1 = some tq1 ∧
     assignTenantQuestionRoute wideStore 4 7 1 none
       = (.error (.validationError "This question is already assigned to the tenant"),
          wideStore)) :=
  ⟨⟨by decide, by decide, by decide,
    ((assignQuestion_preLookup_behavior wideStore 4 7 2 none).2 (by decide)).2.2
      (by decide) (by decide)⟩,
   ⟨by decide,
    ((assignQuestion_preLookup_behavior wideStore 4 7 1 none).1 tq1 (by decide)).1⟩⟩

/-- Claim C6 counterexample: posting an empty-content response as the
Admin on assignment 1 — the claim requires ValidationError with no row
appended; the code accepts it (the insert schema carries no trim or
non-emptiness refinement) and appends a Response row with the empty
content. -/
theorem postResponse_empty_content_succeeds :
    (postResponse baseStore 9 1 adminUser "").1.isOk = true ∧
    (postResponse baseStore 9 1 adminUser "").2.responses
      = [{ id := 1, tenantQuestionId := 1, userId := 1, content := "", createdAt := 9 }] := by
  decide

/-- Claim C6 (amended): `postResponse` applies no emptiness or trimming
check to the content — for every string content, empty and whitespace-only
included, a caller with thread access gets a Response row appended with
`createdAt = now`, and the route never returns a ValidationError. -/
theorem postResponse_no_content_validation (s : StorageState) (now tqId : Nat)
    (user : User) (content : String) (tq : TenantQuestion)
    (h : getTenantQuestion s tqId = some tq)
    (hacc : user.role = "Admin" ∨ user.role = "Consultant"
      ∨ user.tenantId = some tq.tenantId) :
    (postResponse s now tqId user content).2.responses
      = s.responses ++ [{ id := s.nextResponseId, tenantQuestionId := tqId,
                          userId := user.id, content := content, createdAt := now }] ∧
    ∀ msg, (postResponse s now tqId user content).1 ≠ .error (.validationError msg) := by
  rw [postResponse_found s now tqId user content tq h]
  have hb : (user.role != "Admin" && user.role != "Consultant"
      && user.tenantId != some tq.tenantId) = false := by
    rcases hacc with hc | hc | hc <;> simp [hc]
  rw [if_neg (by simp [hb])]
  constructor
  · by_cases hn : (((getUsersByTenant (createResponse s now tqId user.id content).2
        tq.tenantId).any fun u => u.id != user.id)
      && (getQuestion (createResponse s now tqId user.id content).2
        tq.questionId).isNone) = true
    · rw [if_pos hn]
      rfl
    · rw [if_neg hn]
      rfl
  · intro msg
    by_cases hn : (((getUsersByTenant (createResponse s now tqId user.id content).2
        tq.tenantId).any fun u => u.id != user.id)
      && (getQuestion (createResponse s now tqId user.id content).2
        tq.questionId).isNone) = true
    · rw [if_pos hn]
      simp
    · rw [if_neg hn]
      simp

/-- Claim C6 witness: the tenant-7 Customer posting "   " (whitespace
only) on assignment 1 appends the row and raises no ValidationError. -/
theorem postResponse_no_content_validation_witness :
    getTenantQuestion baseStore 1 = some tq1 ∧
    (customer7.role = "Admin" ∨ customer7.role = "Consultant"
      ∨ customer7.tenantId = some tq1.tenantId) ∧
    ((postResponse baseStore 6 1 customer7 "   ").2.responses
      = baseStore.responses ++ [{ id := 1, tenantQuestionId := 1, userId := 4,
                                  content := "   ", createdAt := 6 }] ∧
    ∀ msg, (postResponse baseStore 6 1 customer7 "   ").1
      ≠ .error (.validationError msg)) :=
  ⟨by decide, by decide,
    postResponse_no_content_validation baseStore 6 1 customer7 "   " tq1
      (by decide) (by decide)⟩

/-- Claim C7: refuted as stated — the file-storage save/read roundtrip is
the identity on the stored bytes (last conjunct), but `attachFile` never
reaches the point of creating an Attachment row: `storage.createAttachment`
is an unimplemented stub that throws, so an in-limits PNG upload by the
response's author fails with an internal error (HTTP 500) and leaves no
attachment. The spec is the evident intent (the source comment reads
"Attachment operations (needs implementation)"), so this is a code bug. -/
theorem attachFile_blocked_by_stub_but_storage_roundtrips :
    multerCheck "image/png" 4 = .accepted ∧
    (attachFileRoute responseStore emptyFiles 9 customer7 1 (some pngFile)).1
      = .error (.internal "Method not implemented.") ∧
    (attachFileRoute responseStore emptyFiles 9 customer7 1 (some pngFile)).2.1.attachments
      = [] ∧
    ∀ (fs : FileStore) (buffer : List Nat) (name mime : String),
      getFile (saveFile fs buffer name mime).2 (saveFile fs buffer name mime).1.filename
        = .ok buffer := by
  refine ⟨by decide, by decide, by decide, ?_⟩
  intro fs buffer name mime
  simp [saveFile, getFile]

/-- An absent (tenantId, questionId) pre-lookup means the pair is not
among the stored assignment pairs. -/
theorem pair_not_mem_of_byIds_none {s : StorageState} {t q : Nat}
    (h : getTenantQuestionByIds s t q = none) :
    (t, q) ∉ s.tenantQuestions.map TenantQuestion.pair := by
  intro hmem
  rcases List.mem_map.mp hmem with ⟨tq, htq, hpair⟩
  rw [getTenantQuestionByIds] at h
  have hnp := List.find?_eq_none.mp h tq htq
  apply hnp
  have hpair' : tq.tenantId = t ∧ tq.questionId = q := by
    simpa [TenantQuestion.pair, Prod.ext_iff] using hpair
  simp [hpair'.1, hpair'.2]

/-- The assignment route preserves storage well-formedness: the duplicate
branch and the foreign-key-violation branches leave the store unchanged,
and the insert branch appends a fresh pair under a fresh id. -/
theorem wf_assignRoute (s : StorageState) (now t q : Nat) (st : Option String)
    (h : tqWellFormed s) : tqWellFormed (assignTenantQuestionRoute s now t q st).2 := by
  cases hfind : getTenantQuestionByIds s t q with
  | some tq =>
    have he : (assignTenantQuestionRoute s now t q st).2 = s := by
      rw [assignTenantQuestionRoute, hfind]
    rw [he]; exact h
  | none =>
    by_cases ht : (s.tenants.any fun x => x.id == t) = true
    rotate_left
    · have ht' : (s.tenants.any fun x => x.id == t) = false := by simpa using ht
      have he : (assignTenantQuestionRoute s now t q st).2 = s := by
        rw [assignTenantQuestionRoute, hfind, createTenantQuestion, if_pos (by rw [ht']; rfl)]
      rw [he]; exact h
    by_cases hq : (s.questions.any fun x => x.id == q) = true
    rotate_left
    · have hq' : (s.questions.any fun x => x.id == q) = false := by simpa using hq
      have he : (assignTenantQuestionRoute s now t q st).2 = s := by
        rw [assignTenantQuestionRoute, hfind, createTenantQuestion,
          if_neg (by rw [ht]; simp), if_pos (by rw [hq']; rfl)]
      rw [he]; exact h
    obtain ⟨hp, hi, hb⟩ := h
    have he : (assignTenantQuestionRoute s now t q st).2
        = { s with
            tenantQuestions := s.tenantQuestions ++
              [{ id := s.nextTenantQuestionId, tenantId := t, questionId := q,
                 status := st.getD "Unanswered", lastUpdated := now }],
            nextTenantQuestionId := s.nextTenantQuestionId + 1 } := by
      rw [assignTenantQuestionRoute, hfind, createTenantQuestion,
        if_neg (by rw [ht]; simp), if_neg (by rw [hq]; simp)]
    rw [he]
    refine ⟨?_, ?_, ?_⟩
    · rw [List.map_append]
      refine List.Nodup.append hp (by simp) ?_
      intro a ha hmem
      have ha' : a = (t, q) := by
        simpa [TenantQuestion.pair] using hmem
      rw [ha'] at ha
      exact pair_not_mem_of_byIds_none hfind ha
    · rw [List.map_append]
      refine List.Nodup.append hi (by simp) ?_
      intro a ha hmem
      have ha' : a = s.nextTenantQuestionId := by simpa using hmem
      rcases List.mem_map.mp ha with ⟨tq, htq, hid⟩
      have := hb tq htq
      omega
    · intro tq htq
      rcases List.mem_append.mp htq with hl | hr
      · have := hb tq hl
        simp only
        omega
      · have : tq.id = s.nextTenantQuestionId := by
          have : tq = { id := s.nextTenantQuestionId, tenantId := t, questionId := q,
                        status := st.getD "Unanswered", lastUpdated := now } := by
            simpa using hr
          rw [this]
        simp only
        omega

/-- Mapping a per-element rewrite that a projection cannot see leaves the
projected list unchanged. -/
theorem map_map_eq_of_fix {α β : Type} (l : List α) (f : α → α) (g : α → β)
    (h : ∀ x ∈ l, g (f x) = g x) : (l.map f).map g = l.map g := by
  induction l with
  | nil => rfl
  | cons a rest ih =>
    simp only [List.map_cons]
    rw [h a (List.mem_cons_self a rest), ih (fun x hx => h x (List.mem_cons_of_mem a hx))]

/-- The status route preserves storage well-formedness: a rejected status
or missing row leaves the store unchanged, and the update rewrites one
row in place keeping its id, tenantId and questionId. -/
theorem wf_setStatusRoute (s : StorageState) (now : Nat) (user : User) (id : Nat)
    (st : String) (h : tqWellFormed s) : tqWellFormed (setStatusRoute s now user id st).2 := by
  by_cases hv : (["Unanswered", "In Progress", "Answered"].contains st) = true
  · cases hu : getTenantQuestion s id with
    | none =>
      have he : (setStatusRoute s now user id st).2 = s := by
        rw [setStatusRoute, if_neg (by rw [hv]; simp), updateTenantQuestion, hu]
      rw [he]; exact h
    | some tq =>
      have hmem : tq ∈ s.tenantQuestions := List.mem_of_find?_eq_some hu
      have hid : (tq.id == id) = true := by
        have := List.find?_some hu
        simpa using this
      have hid' : tq.id = id := by simpa using hid
      obtain ⟨hp, hi, hb⟩ := h
      have hfix : ∀ x ∈ s.tenantQuestions,
          TenantQuestion.pair
              (if x.id == id then { tq with status := st, lastUpdated := now } else x)
            = TenantQuestion.pair x := by
        intro x hx
        by_cases hxid : (x.id == id) = true
        · have hxid' : x.id = id := by simpa using hxid
          have hx_eq : x = tq :=
            List.inj_on_of_nodup_map hi hx hmem (by rw [hxid', hid'])
          rw [if_pos hxid, hx_eq]
          rfl
        · rw [if_neg hxid]
      have hfix_id : ∀ x ∈ s.tenantQuestions,
          TenantQuestion.id
              (if x.id == id then { tq with status := st, lastUpdated := now } else x)
            = TenantQuestion.id x := by
        intro x hx
        by_cases hxid : (x.id == id) = true
        · have hxid' : x.id = id := by simpa using hxid
          rw [if_pos hxid]
          show tq.id = x.id
          rw [hid', hxid']
        · rw [if_neg hxid]
      have he : (setStatusRoute s now user id st).2
          = { s with
              tenantQuestions := s.tenantQuestions.map (fun x =>
                if x.id == id then { tq with status := st, lastUpdated := now } else x) } := by
        rw [setStatusRoute, if_neg (by rw [hv]; simp), updateTenantQuestion, hu]
      rw [he]
      refine ⟨?_, ?_, ?_⟩
      · rw [map_map_eq_of_fix s.tenantQuestions _ TenantQuestion.pair hfix]
        exact hp
      · rw [map_map_eq_of_fix s.tenantQuestions _ TenantQuestion.id hfix_id]
        exact hi
      · intro x hx
        rcases List.mem_map.mp hx with ⟨y, hy, hxy⟩
        have hxid : x.id = y.id := by rw [← hxy]; exact hfix_id y hy
        rw [hxid]
        exact hb y hy
  · have hv' : (["Unanswered", "In Progress", "Answered"].contains st) = false := by
      simpa using hv
    have he : (setStatusRoute s now user id st).2 = s := by
      rw [setStatusRoute, if_pos (by rw [hv']; rfl)]
    rw [he]; exact h

/-- Posting a response (whatever its outcome) leaves the assignment table
and its autoincrement counter unchanged. -/
theorem postResponse_tq_unchanged (s : StorageState) (now tqId : Nat) (user : User)
    (content : String) :
    (postResponse s now tqId user content).2.tenantQuestions = s.tenantQuestions ∧
    (postResponse s now tqId user content).2.nextTenantQuestionId
      = s.nextTenantQuestionId := by
  cases hg : getTenantQuestion s tqId with
  | none =>
    have he : postResponse s now tqId user content
        = (.error (.notFound "Tenant question not found"), s) := by
      rw [postResponse]
      simp only [insertResponseSchemaAcceptsContent, Bool.not_true, Bool.false_eq_true,
        if_false]
      rw [hg]
    rw [he]; exact ⟨rfl, rfl⟩
  | some tq =>
    rw [postResponse_found s now tqId user content tq hg]
    constructor
    · split
      · rfl
      · split <;> rfl
    · split
      · rfl
      · split <;> rfl

/-- The attachment route never mutates the database state: every failure
path returns the store unchanged, and the success path is unreachable
because `storage.createAttachment` throws. -/
theorem attachFileRoute_state_unchanged (s : StorageState) (fs : FileStore) (now : Nat)
    (user : User) (responseId : Nat) (file : Option UploadedFile) :
    (attachFileRoute s fs now user responseId file).2.1 = s := by
  cases file with
  | none => rfl
  | some f =>
    cases hr : getResponse s responseId with
    | none => rw [attachFileRoute, hr]
    | some response =>
      simp only [attachFileRoute, hr, createAttachment]
      split <;> rfl

/-- A non-registration operation preserves storage well-formedness. -/
theorem wf_step_nonregister (s : StorageState) (op : Op) (hop : op.isRegister = false)
    (h : tqWellFormed s) : tqWellFormed (step s op) := by
  cases op with
  | assign now t q st => exact wf_assignRoute s now t q st h
  | registerUser now body => simp [Op.isRegister] at hop
  | setStatus now user id st => exact wf_setStatusRoute s now user id st h
  | post now user tqId content =>
    obtain ⟨h1, h2⟩ := postResponse_tq_unchanged s now tqId user content
    show tqWellFormed (postResponse s now tqId user content).2
    unfold tqWellFormed
    rw [h1, h2]
    exact h
  | attach now user responseId file =>
    show tqWellFormed (attachFileRoute s ⟨[], 0⟩ now user responseId file).2.1
    rw [attachFileRoute_state_unchanged s ⟨[], 0⟩ now user responseId file]
    exact h

/-- A sequence of non-registration operations preserves storage
well-formedness. -/
theorem wf_runOps_nonregister : ∀ (ops : List Op) (s : StorageState),
    (∀ op ∈ ops, op.isRegister = false) → tqWellFormed s → tqWellFormed (runOps s ops)
  | [], _, _, h => h
  | op :: rest, s, hops, h =>
    wf_runOps_nonregister rest (step s op)
      (fun o ho => hops o (List.mem_cons_of_mem _ ho))
      (wf_step_nonregister s op (hops op (List.mem_cons_self _ _)) h)

/-- Claim C3 counterexample: from a well-formed store where question 1 is
already assigned to tenant 7, a single registration of a new tenant-7 user
bulk-assigns every question with no duplicate check, producing two
TenantQuestion rows with the pair (7, 1) — the claimed invariant is
violated in a reachable state. -/
theorem registration_creates_duplicate_assignment :
    ¬ uniqueAssignment (runOps baseStore [Op.registerUser 3 regBody1]) := by decide

/-- Claim C3 (amended): the uniqueness of (tenantId, questionId) pairs is
an invariant of every operation sequence that avoids registration-time
bulk default-assignment — the explicit assignment route's pre-lookup,
status updates, response posting and attachment creation all preserve it
from any well-formed store — but registration bulk-assignment performs no
duplicate check and can violate it. -/
theorem assignment_pair_unique_without_registration (s : StorageState) (ops : List Op)
    (hops : ∀ op ∈ ops, op.isRegister = false) (h : tqWellFormed s) :
    uniqueAssignment (runOps s ops) :=
  (wf_runOps_nonregister ops s hops h).1

/-- Claim C3 witness: assigning the fresh, foreign-key-valid pair (7, 2)
on the store that carries question 2 keeps the assignment pairs unique. -/
theorem assignment_pair_unique_without_registration_witness :
    (∀ op ∈ [Op.assign 3 7 2 none], op.isRegister = false) ∧
    tqWellFormed wideStore ∧
    uniqueAssignment (runOps wideStore [Op.assign 3 7 2 none]) :=
  ⟨by decide, by decide,
    assignment_pair_unique_without_registration wideStore [Op.assign 3 7 2 none]
      (by decide) (by decide)⟩

end IGA
